import Mathlib

/-!
Shallow embedding of `bi_wifi.cpp` (class `WiFiManager`, ESP32 WiFi manager
with NVS credential storage and SoftAP provisioning).

Modelling conventions:
* The manager object plus the pieces of environment it interacts with
  (the NVS namespace content, the radio driver's stored station config,
  the FreeRTOS event-group bits) form one Lean structure `Manager`.
* Calls into the radio / provisioning subsystem (`esp_wifi_connect`,
  `esp_wifi_disconnect`, `wifi_prov_mgr_start_provisioning`,
  `wifi_prov_mgr_stop_provisioning`) are recorded in an append-only
  `radioLog`, so theorems can talk about which requests were issued.
* Invocations of the observer callback (`connection_callback_`) are
  recorded in `callbackLog`; a ghost field `stateTrace` records every
  actual change of `state_` so that "callback fires exactly once per
  state change" is expressible.
* NVS primitive failures (`nvs_open`, `nvs_set_str`, `nvs_erase_key`,
  `nvs_commit`, `nvs_get_str`) are modelled by boolean fault flags that
  mirror the error checks in the source, one flag per failure point.
* `wifi_prov_mgr_is_provisioned` consults the radio driver's own stored
  station config (non-empty SSID), not the manager's NVS namespace; it is
  modelled by the `driverSsid` field, which `esp_wifi_set_config` sets.
* The zero-argument `connect()` and `startProvisioning` are mutually
  recursive in the source (through the `is_provisioned` branch), so they
  take a fuel parameter; `none` means the nesting exceeded the fuel.
-/

namespace WiFiManager

/-- `WiFiManager::WiFiState` from `bi_wifi.hpp`. -/
inductive WiFiState where
  | DISCONNECTED
  | CONNECTING
  | CONNECTED
  | PROVISIONING
  | ERROR
deriving DecidableEq, Repr

/-- Requests issued to the radio / provisioning subsystem. -/
inductive RadioCmd where
  | wifiConnect
  | wifiDisconnect
  | provStart (apSsid : String)
  | provStop
deriving DecidableEq, Repr

/-- Content of the manager's NVS namespace: the two string keys
`wifi_ssid` and `wifi_pass`; `none` means the key is absent. -/
structure NVS where
  ssid : Option String
  password : Option String
deriving DecidableEq, Repr

/-- Fault flags for the NVS primitives, one per failure point checked in
the source.  `openFails` covers `nvs_open` (both READONLY and READWRITE),
the others the individual set/get/erase/commit calls. -/
structure NvsFaults where
  openFails : Bool
  setSsidFails : Bool
  setPassFails : Bool
  commitFails : Bool
  eraseSsidFails : Bool
  erasePassFails : Bool
  getSsidFails : Bool
  getPassFails : Bool
deriving DecidableEq, Repr

/-- The healthy storage backend: no primitive fails. -/
def noFaults : NvsFaults :=
  ⟨false, false, false, false, false, false, false, false⟩

/-- The `WiFiManager` object together with its environment. -/
structure Manager where
  state : WiFiState
  initialized : Bool
  provisioning_active : Bool
  current_ssid : String
  current_password : String
  /-- whether `connection_callback_` is non-null -/
  callback_set : Bool
  /-- states passed to the observer callback, oldest first -/
  callbackLog : List WiFiState
  /-- ghost trace: every actual change of `state_`, oldest first -/
  stateTrace : List WiFiState
  nvs : NVS
  faults : NvsFaults
  /-- SSID stored in the radio driver's station config
  (`esp_wifi_set_config`); `wifi_prov_mgr_is_provisioned` reports true
  iff it is non-empty -/
  driverSsid : String
  /-- last three MAC bytes rendered in hex, used for the generated AP name -/
  macSuffix : String
  radioLog : List RadioCmd
  /-- event-group bits -/
  connectedBit : Bool
  failBit : Bool
  provDoneBit : Bool
deriving DecidableEq, Repr

/-- `WiFiManager::updateState`: assigns `state_` and invokes the observer
callback only when the value actually changes. -/
def updateState (m : Manager) (new_state : WiFiState) : Manager :=
  if m.state ≠ new_state then
    { m with
      state := new_state
      stateTrace := m.stateTrace ++ [new_state]
      callbackLog :=
        if m.callback_set then m.callbackLog ++ [new_state] else m.callbackLog }
  else m

/-- `WiFiManager::init`.  `initNVS`/`initWiFi` are modelled as succeeding
(their failure modes abort via `ESP_ERROR_CHECK` or concern resources the
claims do not mention), so the early `return false` paths do not occur. -/
def init (m : Manager) : Bool × Manager :=
  if m.initialized then (true, m)
  else
    let m1 : Manager := { m with initialized := true }
    (true, updateState m1 WiFiState.DISCONNECTED)

/-- Body of `WiFiManager::saveCredentials` as a pure NVS operation: open
READWRITE, set the SSID key, set the password key, commit, close; each
step checked in source order. -/
def saveCredentialsNvs (f : NvsFaults) (nvs : NVS) (ssid password : String) :
    Bool × NVS :=
  if f.openFails then (false, nvs)
  else if f.setSsidFails then (false, nvs)
  else
    let nvs1 : NVS := { nvs with ssid := some ssid }
    if f.setPassFails then (false, nvs1)
    else
      let nvs2 : NVS := { nvs1 with password := some password }
      if f.commitFails then (false, nvs2)
      else (true, nvs2)

/-- `WiFiManager::saveCredentials`, acting on the manager's namespace. -/
def saveCredentials (m : Manager) (ssid password : String) : Bool × Manager :=
  let r := saveCredentialsNvs m.faults m.nvs ssid password
  (r.1, { m with nvs := r.2 })

/-- Body of `WiFiManager::loadCredentials` as a pure NVS read: open
READONLY, query the SSID key's length (fails with NOT_FOUND when the key
is absent), read it, query the password key's length, read it.  Returns
the pair on success. -/
def loadCredentialsNvs (f : NvsFaults) (nvs : NVS) : Option (String × String) :=
  if f.openFails then none
  else
    match nvs.ssid with
    | none => none
    | some s =>
      if f.getSsidFails then none
      else
        match nvs.password with
        | none => none
        | some p =>
          if f.getPassFails then none
          else some (s, p)

/-- `WiFiManager::loadCredentials`, reading the manager's namespace. -/
def loadCredentials (m : Manager) : Option (String × String) :=
  loadCredentialsNvs m.faults m.nvs

/-- `WiFiManager::hasStoredCredentials`: delegates to `loadCredentials`. -/
def hasStoredCredentials (m : Manager) : Bool :=
  (loadCredentials m).isSome

/-- Body of `WiFiManager::clearStoredCredentials` as a pure NVS
operation: open READWRITE, erase the SSID key (a NOT_FOUND result is
accepted), erase the password key, commit. -/
def clearStoredCredentialsNvs (f : NvsFaults) (nvs : NVS) : Bool × NVS :=
  if f.openFails then (false, nvs)
  else if f.eraseSsidFails then (false, nvs)
  else
    let nvs1 : NVS := { nvs with ssid := none }
    if f.erasePassFails then (false, nvs1)
    else
      let nvs2 : NVS := { nvs1 with password := none }
      if f.commitFails then (false, nvs2)
      else (true, nvs2)

/-- `WiFiManager::clearStoredCredentials`, acting on the manager's
namespace. -/
def clearStoredCredentials (m : Manager) : Bool × Manager :=
  let r := clearStoredCredentialsNvs m.faults m.nvs
  (r.1, { m with nvs := r.2 })

/-- `WiFiManager::disconnect`: fails when not initialized; otherwise
issues `esp_wifi_disconnect` (modelled as accepted) and moves to
DISCONNECTED. -/
def disconnect (m : Manager) : Bool × Manager :=
  if !m.initialized then (false, m)
  else
    let m1 : Manager := { m with radioLog := m.radioLog ++ [RadioCmd.wifiDisconnect] }
    (true, updateState m1 WiFiState.DISCONNECTED)

/-- `WiFiManager::connect(ssid, password, save)`: lazily initializes,
implicitly disconnects when already CONNECTING/CONNECTED (return value
ignored, as in the source), saves credentials when asked (return value
ignored, as in the source), clears the event bits, writes the station
config into the driver, issues `esp_wifi_connect` and moves to
CONNECTING. -/
def connect (m0 : Manager) (ssid password : String) (save : Bool) : Bool × Manager :=
  let m1 := if m0.initialized then m0 else (init m0).2
  let m2 := if m1.state = WiFiState.CONNECTING ∨ m1.state = WiFiState.CONNECTED
            then (disconnect m1).2 else m1
  let m3 := if save then (saveCredentials m2 ssid password).2 else m2
  let m4 : Manager := { m3 with connectedBit := false, failBit := false }
  let m5 : Manager := { m4 with driverSsid := ssid }
  let m6 : Manager := { m5 with radioLog := m5.radioLog ++ [RadioCmd.wifiConnect] }
  let m7 := updateState m6 WiFiState.CONNECTING
  (true, { m7 with current_ssid := ssid, current_password := password })

/-- `WiFiManager::stopProvisioning`: a no-op returning true when no
session is active; otherwise stops and deinitializes the provisioning
manager and moves to DISCONNECTED. -/
def stopProvisioning (m : Manager) : Bool × Manager :=
  if !m.provisioning_active then (true, m)
  else
    let m1 : Manager := { m with radioLog := m.radioLog ++ [RadioCmd.provStop] }
    let m2 : Manager := { m1 with provisioning_active := false }
    (true, updateState m2 WiFiState.DISCONNECTED)

mutual

/-- Zero-argument `WiFiManager::connect()`: connect with the stored
credentials when they load, otherwise start provisioning under the
MAC-derived AP name.  Mutually recursive with `startProvisioning` in the
source; `fuel` bounds the nesting depth and `none` reports exhaustion. -/
def connectAuto : Nat → Manager → Option (Bool × Manager)
  | 0, _ => none
  | fuel + 1, m0 =>
    let m1 := if m0.initialized then m0 else (init m0).2
    match loadCredentials m1 with
    | some (s, p) => some (connect m1 s p false)
    | none => startProvisioning fuel m1 ("zubIOT_" ++ m1.macSuffix) "" 1 "abcd1234"

/-- `WiFiManager::startProvisioning(ap_ssid, ap_password, security, pop)`:
returns true at once when a session is already active; otherwise clears
the stored credentials, clears the PROVISIONING_DONE bit, initializes the
provisioning manager, and checks `wifi_prov_mgr_is_provisioned` (the
driver's stored station config).  When not provisioned it starts the
SoftAP session and moves to PROVISIONING; when provisioned it
deinitializes the provisioning manager and falls back to `connect()`. -/
def startProvisioning :
    Nat → Manager → String → String → Nat → String → Option (Bool × Manager)
  | 0, _, _, _, _, _ => none
  | fuel + 1, m0, ap_ssid, _ap_password, _security, _pop =>
    let m1 := if m0.initialized then m0 else (init m0).2
    if m1.provisioning_active then some (true, m1)
    else
      let m2 := (clearStoredCredentials m1).2
      let m3 : Manager := { m2 with provDoneBit := false }
      if m3.driverSsid = "" then
        let m4 : Manager := { m3 with radioLog := m3.radioLog ++ [RadioCmd.provStart ap_ssid] }
        let m5 := updateState m4 WiFiState.PROVISIONING
        some (true, { m5 with provisioning_active := true })
      else
        connectAuto fuel m3

end

/-- The zero-argument `connect()` never returns, at any recursion depth:
the source recursion `connect() → startProvisioning → connect()` does not
terminate on this manager. -/
def ConnectAutoDiverges (m : Manager) : Prop :=
  ∀ fuel, connectAuto fuel m = none

/-- WIFI_EVENT / IP_EVENT identifiers handled by
`WiFiManager::eventHandler`. -/
inductive WifiEvent where
  | staStart
  | staDisconnected
  | apStaConnected
  | apStaDisconnected
  | gotIp
deriving DecidableEq, Repr

/-- `WiFiManager::eventHandler`: a link-down while CONNECTED/CONNECTING
re-issues `esp_wifi_connect` and moves to CONNECTING; otherwise it moves
to DISCONNECTED and raises WIFI_FAIL_BIT.  IP acquisition unconditionally
moves to CONNECTED and raises WIFI_CONNECTED_BIT.  The AP station
join/leave events and STA start only log. -/
def eventHandler (m : Manager) (e : WifiEvent) : Manager :=
  match e with
  | WifiEvent.staStart => m
  | WifiEvent.staDisconnected =>
    if m.state = WiFiState.CONNECTED ∨ m.state = WiFiState.CONNECTING then
      let m1 : Manager := { m with radioLog := m.radioLog ++ [RadioCmd.wifiConnect] }
      updateState m1 WiFiState.CONNECTING
    else
      let m1 := updateState m WiFiState.DISCONNECTED
      { m1 with failBit := true }
  | WifiEvent.apStaConnected => m
  | WifiEvent.apStaDisconnected => m
  | WifiEvent.gotIp =>
    let m1 := updateState m WiFiState.CONNECTED
    { m1 with connectedBit := true }

/-- WIFI_PROV_EVENT identifiers handled by
`WiFiManager::provisioningEventHandler`. -/
inductive ProvEvent where
  | provStarted
  | credRecv (ssid password : String)
  | credFail
  | credSuccess
  | provEnd
deriving DecidableEq, Repr

/-- `WiFiManager::provisioningEventHandler`: received credentials are
saved to NVS (result ignored); at WIFI_PROV_END the provisioning manager
is deinitialized, the active flag dropped, PROVISIONING_DONE raised, and
the stored credentials are loaded — on success the manager connects with
them, on failure it moves to ERROR. -/
def provisioningEventHandler (m : Manager) (e : ProvEvent) : Manager :=
  match e with
  | ProvEvent.provStarted => m
  | ProvEvent.credRecv s p => (saveCredentials m s p).2
  | ProvEvent.credFail => m
  | ProvEvent.credSuccess => m
  | ProvEvent.provEnd =>
    let m1 : Manager := { m with provisioning_active := false, provDoneBit := true }
    match loadCredentials m1 with
    | some (s, p) => (connect m1 s p false).2
    | none => updateState m1 WiFiState.ERROR

/-! ### Concrete managers used by witnesses and counterexamples -/

/-- A freshly constructed, initialized manager with a registered observer,
empty NVS namespace, healthy storage backend and empty driver config. -/
def sample : Manager :=
  { state := WiFiState.DISCONNECTED
    initialized := true
    provisioning_active := false
    current_ssid := ""
    current_password := ""
    callback_set := true
    callbackLog := []
    stateTrace := []
    nvs := ⟨none, none⟩
    faults := noFaults
    driverSsid := ""
    macSuffix := "A1B2C3"
    radioLog := []
    connectedBit := false
    failBit := false
    provDoneBit := false }

/-- `sample` in the middle of a connection attempt. -/
def connectingM : Manager := { sample with state := WiFiState.CONNECTING }

/-- `sample` after a successful connection. -/
def connectedM : Manager := { sample with state := WiFiState.CONNECTED }

/-- `sample` with a provisioning session under way. -/
def provisioningM : Manager :=
  { sample with state := WiFiState.PROVISIONING, provisioning_active := true }

/-- `sample` with a credential pair already stored in NVS. -/
def storedM : Manager :=
  { sample with nvs := ⟨some "homenet", some "pw123"⟩ }

/-- `sample` whose NVS backend fails at `nvs_open`. -/
def faultyM : Manager :=
  { sample with faults := { noFaults with openFails := true } }

/-- `sample` with empty NVS but a non-empty station config left in the
radio driver (e.g. after `connect(ssid, password, save := false)` followed
by `clearStoredCredentials`). -/
def noCredsDriverM : Manager := { sample with driverSsid := "oldnet" }

/-! ### Projection lemmas -/

@[simp] theorem updateState_state (m : Manager) (ns : WiFiState) :
    (updateState m ns).state = ns := by
  unfold updateState; split <;> simp_all

@[simp] theorem updateState_initialized (m : Manager) (ns : WiFiState) :
    (updateState m ns).initialized = m.initialized := by
  unfold updateState; split <;> rfl

@[simp] theorem updateState_provisioning_active (m : Manager) (ns : WiFiState) :
    (updateState m ns).provisioning_active = m.provisioning_active := by
  unfold updateState; split <;> rfl

@[simp] theorem updateState_current_ssid (m : Manager) (ns : WiFiState) :
    (updateState m ns).current_ssid = m.current_ssid := by
  unfold updateState; split <;> rfl

@[simp] theorem updateState_current_password (m : Manager) (ns : WiFiState) :
    (updateState m ns).current_password = m.current_password := by
  unfold updateState; split <;> rfl

@[simp] theorem updateState_callback_set (m : Manager) (ns : WiFiState) :
    (updateState m ns).callback_set = m.callback_set := by
  unfold updateState; split <;> rfl

@[simp] theorem updateState_nvs (m : Manager) (ns : WiFiState) :
    (updateState m ns).nvs = m.nvs := by
  unfold updateState; split <;> rfl

@[simp] theorem updateState_faults (m : Manager) (ns : WiFiState) :
    (updateState m ns).faults = m.faults := by
  unfold updateState; split <;> rfl

@[simp] theorem updateState_driverSsid (m : Manager) (ns : WiFiState) :
    (updateState m ns).driverSsid = m.driverSsid := by
  unfold updateState; split <;> rfl

@[simp] theorem updateState_macSuffix (m : Manager) (ns : WiFiState) :
    (updateState m ns).macSuffix = m.macSuffix := by
  unfold updateState; split <;> rfl

@[simp] theorem updateState_radioLog (m : Manager) (ns : WiFiState) :
    (updateState m ns).radioLog = m.radioLog := by
  unfold updateState; split <;> rfl

@[simp] theorem updateState_connectedBit (m : Manager) (ns : WiFiState) :
    (updateState m ns).connectedBit = m.connectedBit := by
  unfold updateState; split <;> rfl

@[simp] theorem updateState_failBit (m : Manager) (ns : WiFiState) :
    (updateState m ns).failBit = m.failBit := by
  unfold updateState; split <;> rfl

@[simp] theorem updateState_provDoneBit (m : Manager) (ns : WiFiState) :
    (updateState m ns).provDoneBit = m.provDoneBit := by
  unfold updateState; split <;> rfl

@[simp] theorem init_fst (m : Manager) : (init m).1 = true := by
  unfold init; split <;> rfl

@[simp] theorem init_initialized (m : Manager) : (init m).2.initialized = true := by
  unfold init; split <;> simp_all

@[simp] theorem init_state (m : Manager) :
    (init m).2.state = if m.initialized then m.state else WiFiState.DISCONNECTED := by
  unfold init; split <;> simp_all

@[simp] theorem init_provisioning_active (m : Manager) :
    (init m).2.provisioning_active = m.provisioning_active := by
  unfold init; split <;> simp

@[simp] theorem init_nvs (m : Manager) : (init m).2.nvs = m.nvs := by
  unfold init; split <;> simp

@[simp] theorem init_faults (m : Manager) : (init m).2.faults = m.faults := by
  unfold init; split <;> simp

@[simp] theorem init_driverSsid (m : Manager) : (init m).2.driverSsid = m.driverSsid := by
  unfold init; split <;> simp

@[simp] theorem init_macSuffix (m : Manager) : (init m).2.macSuffix = m.macSuffix := by
  unfold init; split <;> simp

@[simp] theorem init_radioLog (m : Manager) : (init m).2.radioLog = m.radioLog := by
  unfold init; split <;> simp

@[simp] theorem init_callback_set (m : Manager) :
    (init m).2.callback_set = m.callback_set := by
  unfold init; split <;> simp

@[simp] theorem disconnect_state (m : Manager) :
    (disconnect m).2.state
      = if m.initialized then WiFiState.DISCONNECTED else m.state := by
  unfold disconnect; cases h : m.initialized <;> simp [h]

@[simp] theorem disconnect_initialized (m : Manager) :
    (disconnect m).2.initialized = m.initialized := by
  unfold disconnect; cases h : m.initialized <;> simp [h]

@[simp] theorem disconnect_provisioning_active (m : Manager) :
    (disconnect m).2.provisioning_active = m.provisioning_active := by
  unfold disconnect; cases h : m.initialized <;> simp [h]

@[simp] theorem disconnect_nvs (m : Manager) : (disconnect m).2.nvs = m.nvs := by
  unfold disconnect; cases h : m.initialized <;> simp [h]

@[simp] theorem disconnect_faults (m : Manager) :
    (disconnect m).2.faults = m.faults := by
  unfold disconnect; cases h : m.initialized <;> simp [h]

@[simp] theorem disconnect_driverSsid (m : Manager) :
    (disconnect m).2.driverSsid = m.driverSsid := by
  unfold disconnect; cases h : m.initialized <;> simp [h]

@[simp] theorem disconnect_callback_set (m : Manager) :
    (disconnect m).2.callback_set = m.callback_set := by
  unfold disconnect; cases h : m.initialized <;> simp [h]

@[simp] theorem saveCredentials_snd_eq (m : Manager) (s p : String) :
    (saveCredentials m s p).2
      = { m with nvs := (saveCredentialsNvs m.faults m.nvs s p).2 } := rfl

@[simp] theorem clearStoredCredentials_snd_eq (m : Manager) :
    (clearStoredCredentials m).2
      = { m with nvs := (clearStoredCredentialsNvs m.faults m.nvs).2 } := rfl

/-! ### Helper lemmas -/

/-- What `connect(ssid, password, save)` always does, whatever the prior
state: it reports success, ends in CONNECTING, records the pair as the
current connection, writes the driver config, and the last radio request
issued is `esp_wifi_connect`. -/
theorem connect_spec (m : Manager) (s p : String) (save : Bool) :
    (connect m s p save).1 = true ∧
    (connect m s p save).2.state = WiFiState.CONNECTING ∧
    (connect m s p save).2.current_ssid = s ∧
    (connect m s p save).2.current_password = p ∧
    (connect m s p save).2.driverSsid = s ∧
    (connect m s p save).2.radioLog.getLast? = some RadioCmd.wifiConnect ∧
    (connect m s p save).2.provisioning_active = m.provisioning_active := by
  unfold connect
  cases h : m.initialized <;> cases save <;>
    simp only [h, Bool.false_eq_true, if_true, if_false] <;>
    split <;> simp [List.getLast?_concat]

/-- C5: save-then-load returns the saved pair, clear-then-load fails,
and save-after-clear succeeds and is visible to a subsequent load
(healthy storage backend). -/
theorem C5_save_load_clear (m : Manager) (s p : String)
    (h : m.faults = noFaults) :
    loadCredentials (saveCredentials m s p).2 = some (s, p) ∧
    loadCredentials (clearStoredCredentials m).2 = none ∧
    (saveCredentials (clearStoredCredentials m).2 s p).1 = true ∧
    loadCredentials (saveCredentials (clearStoredCredentials m).2 s p).2
      = some (s, p) := by
  simp [loadCredentials, saveCredentials, clearStoredCredentials, loadCredentialsNvs, saveCredentialsNvs, clearStoredCredentialsNvs, h, noFaults]

/-- Witness for C5 at a concrete manager and pair. -/
theorem C5_save_load_clear_witness :
    loadCredentials (saveCredentials sample "net" "pw").2 = some ("net", "pw") ∧
    loadCredentials (clearStoredCredentials sample).2 = none ∧
    (saveCredentials (clearStoredCredentials sample).2 "net" "pw").1 = true ∧
    loadCredentials (saveCredentials (clearStoredCredentials sample).2 "net" "pw").2
      = some ("net", "pw") :=
  C5_save_load_clear sample "net" "pw" rfl

/-- C6: loading fails whenever either key is absent, and
`hasStoredCredentials` is true only when both halves are present. -/
theorem C6_atomic_pair (m : Manager) :
    ((m.nvs.ssid = none ∨ m.nvs.password = none) → loadCredentials m = none) ∧
    (hasStoredCredentials m = true → m.nvs.ssid ≠ none ∧ m.nvs.password ≠ none) := by
  unfold hasStoredCredentials loadCredentials loadCredentialsNvs
  rcases hs : m.nvs.ssid with _ | s <;> rcases hp : m.nvs.password with _ | p <;>
    simp [hs, hp]

/-- Witness for C6: a half-written store (identifier only) loads as
not-found and does not report stored credentials. -/
theorem C6_atomic_pair_witness :
    loadCredentials { sample with nvs := ⟨some "x", none⟩ } = none ∧
    ¬ hasStoredCredentials { sample with nvs := ⟨some "x", none⟩ } = true :=
  ⟨(C6_atomic_pair _).1 (Or.inr rfl),
   fun h => ((C6_atomic_pair _).2 h).2 rfl⟩

/-- C10: `stopProvisioning` with no active session is the identity and
returns true. -/
theorem C10_stopProvisioning_noop (m : Manager)
    (h : m.provisioning_active = false) :
    stopProvisioning m = (true, m) := by
  simp [stopProvisioning, h]

/-- Witness for C10 at a concrete idle manager. -/
theorem C10_stopProvisioning_noop_witness :
    stopProvisioning sample = (true, sample) :=
  C10_stopProvisioning_noop sample rfl

/-- C2 counterexample: from CONNECTING, `disconnect()` yields
DISCONNECTED, but a stale IP-acquired event delivered afterwards is not
ignored — it drives the state to CONNECTED. -/
theorem C2_stale_event_counterexample :
    (disconnect connectingM).2.state = WiFiState.DISCONNECTED ∧
    (eventHandler (disconnect connectingM).2 WifiEvent.gotIp).state
      = WiFiState.CONNECTED := by
  decide

/-- C2 amended: `disconnect()` during CONNECTING immediately yields
DISCONNECTED, but a subsequently delivered stale connect-success
(IP-acquired) event is not ignored: the unguarded got-IP handler moves
the state to CONNECTED. -/
theorem C2_disconnect_then_stale_ip (m : Manager)
    (hi : m.initialized = true) (hs : m.state = WiFiState.CONNECTING) :
    (disconnect m).1 = true ∧
    (disconnect m).2.state = WiFiState.DISCONNECTED ∧
    (eventHandler (disconnect m).2 WifiEvent.gotIp).state
      = WiFiState.CONNECTED := by
  simp [disconnect, eventHandler, updateState, hi, hs]

/-- Witness for the amended C2 at a concrete connecting manager. -/
theorem C2_disconnect_then_stale_ip_witness :
    (disconnect connectingM).1 = true ∧
    (disconnect connectingM).2.state = WiFiState.DISCONNECTED ∧
    (eventHandler (disconnect connectingM).2 WifiEvent.gotIp).state
      = WiFiState.CONNECTED :=
  C2_disconnect_then_stale_ip connectingM rfl rfl

/-- C3 counterexample: a link-down arriving while PROVISIONING (a state
other than DISCONNECTED) raises the failure signal. -/
theorem C3_fail_signal_counterexample :
    provisioningM.state ≠ WiFiState.DISCONNECTED ∧
    (eventHandler provisioningM WifiEvent.staDisconnected).failBit = true := by
  decide

/-- C3 amended: a link-down while CONNECTED or CONNECTING re-issues the
radio connect and lands in CONNECTING without touching the failure
signal; in every other state (DISCONNECTED, PROVISIONING, ERROR) the
link-down moves the state to DISCONNECTED and raises the failure
signal. -/
theorem C3_linkdown_policy (m : Manager) :
    ((m.state = WiFiState.CONNECTED ∨ m.state = WiFiState.CONNECTING) →
      (eventHandler m WifiEvent.staDisconnected).state = WiFiState.CONNECTING ∧
      (eventHandler m WifiEvent.staDisconnected).failBit = m.failBit ∧
      (eventHandler m WifiEvent.staDisconnected).radioLog
        = m.radioLog ++ [RadioCmd.wifiConnect]) ∧
    (¬ (m.state = WiFiState.CONNECTED ∨ m.state = WiFiState.CONNECTING) →
      (eventHandler m WifiEvent.staDisconnected).state = WiFiState.DISCONNECTED ∧
      (eventHandler m WifiEvent.staDisconnected).failBit = true ∧
      (eventHandler m WifiEvent.staDisconnected).radioLog = m.radioLog) := by
  cases hst : m.state <;> simp [eventHandler, updateState, hst]

/-- Witness for the amended C3: the retry branch at a concrete connected
manager and the failure branch at a concrete disconnected manager. -/
theorem C3_linkdown_policy_witness :
    ((eventHandler connectedM WifiEvent.staDisconnected).state
        = WiFiState.CONNECTING ∧
      (eventHandler connectedM WifiEvent.staDisconnected).failBit
        = connectedM.failBit ∧
      (eventHandler connectedM WifiEvent.staDisconnected).radioLog
        = connectedM.radioLog ++ [RadioCmd.wifiConnect]) ∧
    ((eventHandler sample WifiEvent.staDisconnected).state
        = WiFiState.DISCONNECTED ∧
      (eventHandler sample WifiEvent.staDisconnected).failBit = true ∧
      (eventHandler sample WifiEvent.staDisconnected).radioLog
        = sample.radioLog) :=
  ⟨(C3_linkdown_policy connectedM).1 (Or.inl rfl),
   (C3_linkdown_policy sample).2 (by decide)⟩

/-- C8: when the provisioning-ended event is handled, a successful
credential load leads to a connect with the loaded pair and state
CONNECTING; a failed load leads to state ERROR with no radio or
provisioning request issued and the session flag dropped. -/
theorem C8_provisioning_end (m : Manager) (s p : String) :
    (loadCredentials m = some (s, p) →
      (provisioningEventHandler m ProvEvent.provEnd).state = WiFiState.CONNECTING ∧
      (provisioningEventHandler m ProvEvent.provEnd).current_ssid = s ∧
      (provisioningEventHandler m ProvEvent.provEnd).current_password = p ∧
      (provisioningEventHandler m ProvEvent.provEnd).driverSsid = s ∧
      (provisioningEventHandler m ProvEvent.provEnd).radioLog.getLast?
        = some RadioCmd.wifiConnect ∧
      (provisioningEventHandler m ProvEvent.provEnd).provisioning_active = false) ∧
    (loadCredentials m = none →
      (provisioningEventHandler m ProvEvent.provEnd).state = WiFiState.ERROR ∧
      (provisioningEventHandler m ProvEvent.provEnd).provisioning_active = false ∧
      (provisioningEventHandler m ProvEvent.provEnd).radioLog = m.radioLog) := by
  have hred : provisioningEventHandler m ProvEvent.provEnd
      = match loadCredentials { m with provisioning_active := false, provDoneBit := true } with
        | some (a, b) =>
          (connect { m with provisioning_active := false, provDoneBit := true } a b false).2
        | none =>
          updateState { m with provisioning_active := false, provDoneBit := true }
            WiFiState.ERROR := rfl
  constructor
  · intro h
    have hl : loadCredentials
        { m with provisioning_active := false, provDoneBit := true } = some (s, p) := h
    rw [hred, hl]
    have hc := connect_spec { m with provisioning_active := false, provDoneBit := true } s p false
    exact ⟨hc.2.1, hc.2.2.1, hc.2.2.2.1, hc.2.2.2.2.1, hc.2.2.2.2.2.1,
      hc.2.2.2.2.2.2⟩
  · intro h
    have hl : loadCredentials
        { m with provisioning_active := false, provDoneBit := true } = none := h
    rw [hred, hl]
    simp

/-- Witness for C8: both branches at concrete managers — a store holding
a pair, and a provisioning manager with an empty store. -/
theorem C8_provisioning_end_witness :
    ((provisioningEventHandler storedM ProvEvent.provEnd).state
        = WiFiState.CONNECTING ∧
      (provisioningEventHandler storedM ProvEvent.provEnd).current_ssid = "homenet" ∧
      (provisioningEventHandler storedM ProvEvent.provEnd).current_password = "pw123" ∧
      (provisioningEventHandler storedM ProvEvent.provEnd).driverSsid = "homenet" ∧
      (provisioningEventHandler storedM ProvEvent.provEnd).radioLog.getLast?
        = some RadioCmd.wifiConnect ∧
      (provisioningEventHandler storedM ProvEvent.provEnd).provisioning_active = false) ∧
    ((provisioningEventHandler provisioningM ProvEvent.provEnd).state
        = WiFiState.ERROR ∧
      (provisioningEventHandler provisioningM ProvEvent.provEnd).provisioning_active
        = false ∧
      (provisioningEventHandler provisioningM ProvEvent.provEnd).radioLog
        = provisioningM.radioLog) :=
  ⟨(C8_provisioning_end storedM "homenet" "pw123").1 rfl,
   (C8_provisioning_end provisioningM "" "").2 rfl⟩

/-- C9 counterexample: with a failing storage backend,
`connect(ssid, password, save := true)` still reports success even
though the credential save failed. -/
theorem C9_ignored_save_failure_counterexample :
    (saveCredentials faultyM "net" "pw").1 = false ∧
    (connect faultyM "net" "pw" true).1 = true := by
  decide

/-- C9 amended: a storage-backend failure makes `saveCredentials` and
`clearStoredCredentials` themselves return failure and (for an open
failure) leave the stored pair unchanged, but
`connect(ssid, password, save := true)` ignores the failed save: it
still issues the radio connect, reaches CONNECTING and returns true. -/
theorem C9_storage_failure (m : Manager) (s p : String)
    (h : m.faults.openFails = true) :
    (saveCredentials m s p).1 = false ∧
    (saveCredentials m s p).2 = m ∧
    (clearStoredCredentials m).1 = false ∧
    (clearStoredCredentials m).2 = m ∧
    (connect m s p true).1 = true ∧
    (connect m s p true).2.state = WiFiState.CONNECTING ∧
    (connect m s p true).2.radioLog.getLast? = some RadioCmd.wifiConnect := by
  refine ⟨?_, ?_, ?_, ?_, (connect_spec m s p true).1, (connect_spec m s p true).2.1,
    (connect_spec m s p true).2.2.2.2.2.1⟩ <;>
    simp [saveCredentials, clearStoredCredentials, saveCredentialsNvs,
      clearStoredCredentialsNvs, h]

/-- Witness for the amended C9 at a concrete manager with a failing
backend. -/
theorem C9_storage_failure_witness :
    (saveCredentials faultyM "net" "pw").1 = false ∧
    (saveCredentials faultyM "net" "pw").2 = faultyM ∧
    (clearStoredCredentials faultyM).1 = false ∧
    (clearStoredCredentials faultyM).2 = faultyM ∧
    (connect faultyM "net" "pw" true).1 = true ∧
    (connect faultyM "net" "pw" true).2.state = WiFiState.CONNECTING ∧
    (connect faultyM "net" "pw" true).2.radioLog.getLast?
      = some RadioCmd.wifiConnect :=
  C9_storage_failure faultyM "net" "pw" rfl

/-- C1, evaluation at the failing input: with a credential pair stored
and no session active, `startProvisioning` erases the stored pair and
starts advertising a provisioning access point (ending in PROVISIONING),
instead of connecting with the stored credentials; no radio connect is
issued and the credentials do not survive. -/
theorem C1_clear_before_check_eval :
    hasStoredCredentials storedM = true ∧
    storedM.provisioning_active = false ∧
    (startProvisioning 1 storedM "AP" "" 1 "pop").map
        (fun r => (r.1, r.2.state, r.2.nvs, r.2.radioLog))
      = some (true, WiFiState.PROVISIONING, (⟨none, none⟩ : NVS),
          [RadioCmd.provStart "AP"]) := by
  decide

/-- C7, evaluation at the failing input: with no stored credentials but
a non-empty station config left in the radio driver, the zero-argument
`connect()` never reaches PROVISIONING — it recurses between `connect()`
and `startProvisioning` without bound (the model returns `none` at every
fuel). -/
theorem C7_connect_diverges_eval :
    loadCredentials noCredsDriverM = none ∧
    noCredsDriverM.state = WiFiState.DISCONNECTED ∧
    ConnectAutoDiverges noCredsDriverM := by
  refine ⟨rfl, rfl, ?_⟩
  have key : ∀ fuel, connectAuto fuel noCredsDriverM = none ∧
      ∀ a b c d, startProvisioning fuel noCredsDriverM a b c d = none := by
    intro fuel
    induction fuel with
    | zero => exact ⟨rfl, fun _ _ _ _ => rfl⟩
    | succ n ih => exact ⟨ih.2 _ _ _ _, fun _ _ _ _ => ih.1⟩
  exact fun fuel => (key fuel).1

/-! ### Event/operation sequences and the notification invariant -/

/-- One external stimulus: a facade call or an asynchronous event.  The
fueled calls carry their fuel; registration of the observer is part of
the starting manager (`callback_set`), not an action. -/
inductive Action where
  | doInit
  | doConnectAuto (fuel : Nat)
  | doConnect (ssid password : String) (save : Bool)
  | doDisconnect
  | doStartProvisioning (fuel : Nat) (apSsid apPassword : String)
      (security : Nat) (pop : String)
  | doStopProvisioning
  | doClearCredentials
  | wifi (e : WifiEvent)
  | prov (e : ProvEvent)
deriving Repr

/-- Apply one action to the manager.  A fueled call that exhausts its
fuel contributes nothing (the run is truncated there). -/
def applyAction (m : Manager) (a : Action) : Manager :=
  match a with
  | Action.doInit => (init m).2
  | Action.doConnectAuto fuel =>
    match connectAuto fuel m with
    | some r => r.2
    | none => m
  | Action.doConnect s p sv => (connect m s p sv).2
  | Action.doDisconnect => (disconnect m).2
  | Action.doStartProvisioning fuel a b c d =>
    match startProvisioning fuel m a b c d with
    | some r => r.2
    | none => m
  | Action.doStopProvisioning => (stopProvisioning m).2
  | Action.doClearCredentials => (clearStoredCredentials m).2
  | Action.wifi e => eventHandler m e
  | Action.prov e => provisioningEventHandler m e

/-- Apply a sequence of actions, oldest first. -/
def applyActions (m : Manager) (l : List Action) : Manager :=
  l.foldl applyAction m

/-- The last element of `l`, or `a` when `l` is empty. -/
def lastD {α : Type} (a : α) : List α → α
  | [] => a
  | b :: t => lastD b t

/-- Relation between a manager and its successor under an operation: the
ghost state trace grew by a block `l` in which consecutive entries
differ and whose head differs from the starting state (no no-op
transition is ever recorded), the observer received exactly that block
when a callback is registered (and nothing otherwise), and the final
state is the block's last entry (the starting state for an empty
block). -/
def NotifyInv (m m2 : Manager) : Prop :=
  m2.callback_set = m.callback_set ∧
  ∃ l, m2.stateTrace = m.stateTrace ++ l ∧
    (m.callback_set = true → m2.callbackLog = m.callbackLog ++ l) ∧
    (m.callback_set = false → m2.callbackLog = m.callbackLog) ∧
    List.Chain (fun a b => a ≠ b) m.state l ∧
    m2.state = lastD m.state l

theorem notifyInv_refl (m : Manager) : NotifyInv m m :=
  ⟨rfl, [], by simp, fun _ => by simp, fun _ => rfl, List.Chain.nil, rfl⟩

theorem lastD_append {α : Type} :
    ∀ (a : α) (l1 l2 : List α), lastD a (l1 ++ l2) = lastD (lastD a l1) l2 := by
  intro a l1
  induction l1 generalizing a with
  | nil => intro l2; rfl
  | cons b t ih => intro l2; exact ih b l2

/-- A chain starting at `a` extends by a chain starting at its last
element. -/
theorem chain_ne_append {α : Type} (R : α → α → Prop) :
    ∀ (a : α) (l1 l2 : List α), List.Chain R a l1 →
      List.Chain R (lastD a l1) l2 → List.Chain R a (l1 ++ l2) := by
  intro a l1
  induction l1 generalizing a with
  | nil => intro l2 _ h2; exact h2
  | cons b t ih =>
    intro l2 h1 h2
    rw [List.chain_cons] at h1
    rw [List.cons_append, List.chain_cons]
    exact ⟨h1.1, ih b l2 h1.2 h2⟩

theorem notifyInv_trans {m1 m2 m3 : Manager}
    (h12 : NotifyInv m1 m2) (h23 : NotifyInv m2 m3) : NotifyInv m1 m3 := by
  obtain ⟨hc, l, ht, hl, hl0, hch, hs⟩ := h12
  obtain ⟨hc2, l2, ht2, hl2, hl20, hch2, hs2⟩ := h23
  refine ⟨hc2.trans hc, l ++ l2, ?_, ?_, ?_, ?_, ?_⟩
  · rw [ht2, ht, List.append_assoc]
  · intro h; rw [hl2 (hc.trans h), hl h, List.append_assoc]
  · intro h; rw [hl20 (hc.trans h), hl0 h]
  · exact chain_ne_append _ _ _ _ hch (hs ▸ hch2)
  · rw [hs2, hs, lastD_append]

/-- An operation that leaves state, trace, log and registration alone
satisfies the invariant with the empty block. -/
theorem notifyInv_of_silent (m m2 : Manager)
    (hs : m2.state = m.state) (ht : m2.stateTrace = m.stateTrace)
    (hl : m2.callbackLog = m.callbackLog)
    (hc : m2.callback_set = m.callback_set) : NotifyInv m m2 :=
  ⟨hc, [], by simp [ht], fun _ => by simp [hl], fun _ => hl, List.Chain.nil, hs⟩

theorem notifyInv_updateState (m : Manager) (ns : WiFiState) :
    NotifyInv m (updateState m ns) := by
  unfold updateState
  split
  · rename_i h
    refine ⟨rfl, [ns], rfl, ?_, ?_, ?_, rfl⟩
    · intro hc; simp [hc]
    · intro hc; simp [hc]
    · exact List.chain_cons.2 ⟨h, List.Chain.nil⟩
  · exact notifyInv_refl m

theorem notifyInv_init (m : Manager) : NotifyInv m (init m).2 := by
  unfold init
  split
  · exact notifyInv_refl m
  · exact notifyInv_trans
      (notifyInv_of_silent _ ({ m with initialized := true }) rfl rfl rfl rfl)
      (notifyInv_updateState _ _)

theorem notifyInv_saveCredentials (m : Manager) (s p : String) :
    NotifyInv m (saveCredentials m s p).2 :=
  notifyInv_of_silent _ _ rfl rfl rfl rfl

theorem notifyInv_clearStoredCredentials (m : Manager) :
    NotifyInv m (clearStoredCredentials m).2 :=
  notifyInv_of_silent _ _ rfl rfl rfl rfl

theorem notifyInv_disconnect (m : Manager) : NotifyInv m (disconnect m).2 := by
  unfold disconnect
  split
  · exact notifyInv_refl m
  · exact notifyInv_trans
      (notifyInv_of_silent _
        ({ m with radioLog := m.radioLog ++ [RadioCmd.wifiDisconnect] })
        rfl rfl rfl rfl)
      (notifyInv_updateState _ _)

theorem notifyInv_connect (m : Manager) (s p : String) (sv : Bool) :
    NotifyInv m (connect m s p sv).2 := by
  have h1 : NotifyInv m (if m.initialized then m else (init m).2) := by
    split
    · exact notifyInv_refl m
    · exact notifyInv_init m
  have h2 : ∀ mm : Manager, NotifyInv mm
      (if mm.state = WiFiState.CONNECTING ∨ mm.state = WiFiState.CONNECTED
        then (disconnect mm).2 else mm) := by
    intro mm; split
    · exact notifyInv_disconnect mm
    · exact notifyInv_refl mm
  have h3 : ∀ mm : Manager, NotifyInv mm
      (if sv then (saveCredentials mm s p).2 else mm) := by
    intro mm; split
    · exact notifyInv_saveCredentials mm s p
    · exact notifyInv_refl mm
  have h4 : ∀ mm : Manager, NotifyInv mm
      ({ (updateState
            { mm with
                connectedBit := false
                failBit := false
                driverSsid := s
                radioLog := mm.radioLog ++ [RadioCmd.wifiConnect] }
            WiFiState.CONNECTING) with current_ssid := s, current_password := p }) := by
    intro mm
    refine notifyInv_trans (notifyInv_trans
      (notifyInv_of_silent _
        ({ mm with
            connectedBit := false
            failBit := false
            driverSsid := s
            radioLog := mm.radioLog ++ [RadioCmd.wifiConnect] }) rfl rfl rfl rfl)
      (notifyInv_updateState _ _)) (notifyInv_of_silent _ _ rfl rfl rfl rfl)
  exact notifyInv_trans (notifyInv_trans (notifyInv_trans h1 (h2 _)) (h3 _)) (h4 _)

theorem notifyInv_stopProvisioning (m : Manager) :
    NotifyInv m (stopProvisioning m).2 := by
  unfold stopProvisioning
  split
  · exact notifyInv_refl m
  · exact notifyInv_trans
      (notifyInv_of_silent _
        ({ m with
             radioLog := m.radioLog ++ [RadioCmd.provStop]
             provisioning_active := false }) rfl rfl rfl rfl)
      (notifyInv_updateState _ _)

theorem notifyInv_eventHandler (m : Manager) (e : WifiEvent) :
    NotifyInv m (eventHandler m e) := by
  cases e with
  | staStart => exact notifyInv_refl m
  | apStaConnected => exact notifyInv_refl m
  | apStaDisconnected => exact notifyInv_refl m
  | staDisconnected =>
    have hred : eventHandler m WifiEvent.staDisconnected
        = if m.state = WiFiState.CONNECTED ∨ m.state = WiFiState.CONNECTING then
            updateState { m with radioLog := m.radioLog ++ [RadioCmd.wifiConnect] }
              WiFiState.CONNECTING
          else
            { (updateState m WiFiState.DISCONNECTED) with failBit := true } := rfl
    rw [hred]
    split
    · exact notifyInv_trans
        (notifyInv_of_silent _
          ({ m with radioLog := m.radioLog ++ [RadioCmd.wifiConnect] })
          rfl rfl rfl rfl)
        (notifyInv_updateState _ _)
    · exact notifyInv_trans (notifyInv_updateState _ _)
        (notifyInv_of_silent _ _ rfl rfl rfl rfl)
  | gotIp =>
    have hred : eventHandler m WifiEvent.gotIp
        = { (updateState m WiFiState.CONNECTED) with connectedBit := true } := rfl
    rw [hred]
    exact notifyInv_trans (notifyInv_updateState _ WiFiState.CONNECTED)
      (notifyInv_of_silent _ _ rfl rfl rfl rfl)

theorem notifyInv_provisioningEventHandler (m : Manager) (e : ProvEvent) :
    NotifyInv m (provisioningEventHandler m e) := by
  cases e with
  | provStarted => exact notifyInv_refl m
  | credFail => exact notifyInv_refl m
  | credSuccess => exact notifyInv_refl m
  | credRecv s p => exact notifyInv_saveCredentials m s p
  | provEnd =>
    have hsil : NotifyInv m
        ({ m with provisioning_active := false, provDoneBit := true }) :=
      notifyInv_of_silent _ _ rfl rfl rfl rfl
    have hred : provisioningEventHandler m ProvEvent.provEnd
        = match loadCredentials
              { m with provisioning_active := false, provDoneBit := true } with
          | some (a, b) =>
            (connect { m with provisioning_active := false, provDoneBit := true }
              a b false).2
          | none =>
            updateState { m with provisioning_active := false, provDoneBit := true }
              WiFiState.ERROR := rfl
    rw [hred]
    split
    · exact notifyInv_trans hsil (notifyInv_connect _ _ _ _)
    · exact notifyInv_trans hsil (notifyInv_updateState _ _)

theorem notifyInv_fueled :
    ∀ fuel : Nat,
      (∀ (m : Manager) (r : Bool × Manager),
        connectAuto fuel m = some r → NotifyInv m r.2) ∧
      (∀ (m : Manager) (a b : String) (c : Nat) (d : String) (r : Bool × Manager),
        startProvisioning fuel m a b c d = some r → NotifyInv m r.2) := by
  intro fuel
  induction fuel with
  | zero =>
    constructor
    · intro m r h; cases h
    · intro m a b c d r h; cases h
  | succ n ih =>
    have hinit : ∀ m : Manager,
        NotifyInv m (if m.initialized then m else (init m).2) := by
      intro m; split
      · exact notifyInv_refl m
      · exact notifyInv_init m
    constructor
    · intro m r h
      have main : ∀ (m1 : Manager) (r1 : Bool × Manager),
          (match loadCredentials m1 with
           | some (s, p) => some (connect m1 s p false)
           | none =>
             startProvisioning n m1 ("zubIOT_" ++ m1.macSuffix) "" 1 "abcd1234")
            = some r1 → NotifyInv m1 r1.2 := by
        intro m1 r1 h1
        split at h1
        · rename_i s p _
          cases h1
          exact notifyInv_connect _ _ _ _
        · exact ih.2 _ _ _ _ _ _ h1
      exact notifyInv_trans (hinit m) (main _ r h)
    · intro m a b c d r h
      have inner : ∀ (m3 : Manager) (r3 : Bool × Manager),
          (if m3.driverSsid = "" then
             some (true,
               { (updateState
                   { m3 with radioLog := m3.radioLog ++ [RadioCmd.provStart a] }
                   WiFiState.PROVISIONING) with provisioning_active := true })
           else connectAuto n m3) = some r3 → NotifyInv m3 r3.2 := by
        intro m3 r3 h3
        split at h3
        · cases h3
          exact notifyInv_trans
            (notifyInv_of_silent _
              ({ m3 with radioLog := m3.radioLog ++ [RadioCmd.provStart a] })
              rfl rfl rfl rfl)
            (notifyInv_trans (notifyInv_updateState _ _)
              (notifyInv_of_silent _ _ rfl rfl rfl rfl))
        · exact ih.1 m3 r3 h3
      have main : ∀ (m1 : Manager) (r1 : Bool × Manager),
          (if m1.provisioning_active then some (true, m1)
           else
             if ({ (clearStoredCredentials m1).2 with
                   provDoneBit := false } : Manager).driverSsid = "" then
               some (true,
                 { (updateState
                     { ({ (clearStoredCredentials m1).2 with
                          provDoneBit := false } : Manager) with
                       radioLog :=
                         ({ (clearStoredCredentials m1).2 with
                            provDoneBit := false } : Manager).radioLog
                           ++ [RadioCmd.provStart a] }
                     WiFiState.PROVISIONING) with provisioning_active := true })
             else connectAuto n
               ({ (clearStoredCredentials m1).2 with provDoneBit := false }))
            = some r1 → NotifyInv m1 r1.2 := by
        intro m1 r1 h1
        split at h1
        · cases h1; exact notifyInv_refl m1
        · exact notifyInv_trans
            (notifyInv_of_silent _
              ({ (clearStoredCredentials m1).2 with provDoneBit := false })
              rfl rfl rfl rfl)
            (inner _ r1 h1)
      exact notifyInv_trans (hinit m) (main _ r h)

theorem notifyInv_applyAction (m : Manager) (a : Action) :
    NotifyInv m (applyAction m a) := by
  cases a with
  | doInit => exact notifyInv_init m
  | doConnectAuto fuel =>
    have hred : applyAction m (Action.doConnectAuto fuel)
        = match connectAuto fuel m with
          | some r => r.2
          | none => m := rfl
    rw [hred]
    split
    · rename_i r h; exact (notifyInv_fueled fuel).1 m r h
    · exact notifyInv_refl m
  | doConnect s p sv => exact notifyInv_connect m s p sv
  | doDisconnect => exact notifyInv_disconnect m
  | doStartProvisioning fuel a b c d =>
    have hred : applyAction m (Action.doStartProvisioning fuel a b c d)
        = match startProvisioning fuel m a b c d with
          | some r => r.2
          | none => m := rfl
    rw [hred]
    split
    · rename_i r h; exact (notifyInv_fueled fuel).2 m a b c d r h
    · exact notifyInv_refl m
  | doStopProvisioning => exact notifyInv_stopProvisioning m
  | doClearCredentials => exact notifyInv_clearStoredCredentials m
  | wifi e => exact notifyInv_eventHandler m e
  | prov e => exact notifyInv_provisioningEventHandler m e

theorem notifyInv_applyActions (m : Manager) (acts : List Action) :
    NotifyInv m (applyActions m acts) := by
  induction acts generalizing m with
  | nil => exact notifyInv_refl m
  | cons a t ih => exact notifyInv_trans (notifyInv_applyAction m a) (ih _)

/-- C4: over every sequence of operations and events, with an observer
registered, the callback log grows by exactly the block of actual state
changes (one entry per change, none for a no-op transition): the block
equals the ghost trace of state changes, consecutive entries differ, its
head differs from the starting state, and the final state is its last
entry. -/
theorem C4_observer_fires_exactly_on_change (m : Manager) (acts : List Action)
    (h : m.callback_set = true) :
    ∃ l, (applyActions m acts).callbackLog = m.callbackLog ++ l ∧
      (applyActions m acts).stateTrace = m.stateTrace ++ l ∧
      List.Chain (fun a b => a ≠ b) m.state l ∧
      (applyActions m acts).state = lastD m.state l := by
  obtain ⟨hc, l, ht, hl, _, hch, hs⟩ := notifyInv_applyActions m acts
  exact ⟨l, hl h, ht, hch, hs⟩

/-- Witness for C4: a run with a repeated link-down while already
CONNECTING (a no-op transition) followed by IP acquisition. -/
theorem C4_observer_fires_exactly_on_change_witness :
    ∃ l, (applyActions connectedM
        [Action.wifi WifiEvent.staDisconnected,
         Action.wifi WifiEvent.staDisconnected,
         Action.wifi WifiEvent.gotIp]).callbackLog
      = connectedM.callbackLog ++ l ∧
      (applyActions connectedM
        [Action.wifi WifiEvent.staDisconnected,
         Action.wifi WifiEvent.staDisconnected,
         Action.wifi WifiEvent.gotIp]).stateTrace
      = connectedM.stateTrace ++ l ∧
      List.Chain (fun a b => a ≠ b) connectedM.state l ∧
      (applyActions connectedM
        [Action.wifi WifiEvent.staDisconnected,
         Action.wifi WifiEvent.staDisconnected,
         Action.wifi WifiEvent.gotIp]).state = lastD connectedM.state l :=
  C4_observer_fires_exactly_on_change connectedM
    [Action.wifi WifiEvent.staDisconnected,
     Action.wifi WifiEvent.staDisconnected,
     Action.wifi WifiEvent.gotIp] rfl

end WiFiManager
